import Mathlib

/-!
Shallow embedding of `cam.py`, a security-camera agent: change-triggered
capture, a cascading image-analysis pipeline, a command router and the
camera state held as attributes on the polling function.
-/

/-- `CHANGE_THRESHOLD = 0.005` from the source, as an exact rational. -/
def CHANGE_THRESHOLD : ℚ := 5 / 1000

def S3_BUCKET : String := "<YOUR_S3_BUCKET>"

def S3_SEEN_KEY : String := "pizero/seen.json"

def REKOGNITION_COLLECTION_ID : String := "security-camera"

/-- Whether the character list starting here begins with `n`. -/
def listStartsWith : List Char → List Char → Bool
  | [], _ => true
  | _ :: _, [] => false
  | a :: as, b :: bs => a == b && listStartsWith as bs

/-- Whether `n` occurs as a contiguous sublist of the second argument. -/
def listSubOf (n : List Char) : List Char → Bool
  | [] => listStartsWith n []
  | b :: bs => listStartsWith n (b :: bs) || listSubOf n bs

/-- Python `needle in hay` on strings: substring containment, case-sensitive. -/
def pyIn (needle hay : String) : Bool :=
  listSubOf needle.data hay.data

/-- Python `str.capitalize()`: first character uppercased, the rest lowercased. -/
def pyCapitalize (s : String) : String :=
  match s.data with
  | [] => ""
  | c :: cs => String.mk (c.toUpper :: cs.map Char.toLower)

/-- Following the words of the design document only: capitalize the first
letter of the label and leave the remaining characters unchanged. Used to
compare the documented normalization with the one the code performs. -/
def capitalizeFirstLetterOnly (s : String) : String :=
  match s.data with
  | [] => ""
  | c :: cs => String.mk (c.toUpper :: cs)

/-- The mutable attributes attached to `use_camera` in the source:
`use_camera.camera_enabled` and `use_camera.size`. A Python function
attribute does not exist until first assigned, so `size` is an `Option`:
`none` models the attribute being unset (reading it raises). -/
structure CamState where
  camera_enabled : Bool
  size : Option Nat
deriving DecidableEq

/-- `enable_camera`: sets `use_camera.size = 0` and
`use_camera.camera_enabled = True`. -/
def enable_camera (s : CamState) : CamState :=
  { s with size := some 0, camera_enabled := true }

/-- `disable_camera`: sets `use_camera.camera_enabled = False`. -/
def disable_camera (s : CamState) : CamState :=
  { s with camera_enabled := false }

/-- The state right after `main` reaches its loop: `main` assigns
`use_camera.camera_enabled = False` and never assigns `use_camera.size`. -/
def initState : CamState :=
  { camera_enabled := false, size := none }

/-- Python `abs` on a rational, written executably. -/
def pyAbs (q : ℚ) : ℚ := if q < 0 then -q else q

/-- The size-change computation in `use_camera` (lines 97-100):
`abs(1 - use_camera.size / previous_size)` when `previous_size > 0`,
else `0`. Division is exact rational division. -/
def size_change_calc (previous_size current : Nat) : ℚ :=
  if previous_size > 0 then pyAbs (1 - (current : ℚ) / (previous_size : ℚ)) else 0

/-- Python short-circuiting `or`: the right operand is evaluated only when
the left one is falsy. The right operand may fail to evaluate (`none`,
modelling a NameError on an unassigned local). -/
def pyOr (a : Bool) (b : Unit → Option Bool) : Option Bool :=
  if a then some true else b ()

/-- Evaluation of the trigger condition `once or size_change > CHANGE_THRESHOLD`
at line 104. `sizeChange = none` models the local variable being unassigned;
reading it then yields `none` (a NameError) unless short-circuited away. -/
def triggerEval (once : Bool) (sizeChange : Option ℚ) : Option Bool :=
  pyOr once (fun _ => sizeChange.map (fun c => decide (c > CHANGE_THRESHOLD)))

/-- `use_camera(once)` given the size the fresh capture leaves in the buffer.
Returns `none` when execution raises (reading the unset `size` attribute or
an unassigned local), otherwise `some (newState, analysed)` where `analysed`
tells whether the image was uploaded and `analyse_image` invoked. -/
def use_camera (once : Bool) (captureSize : Nat) (s : CamState) :
    Option (CamState × Bool) :=
  if once then
    (triggerEval once none).map (fun t => (s, t))
  else
    match s.size with
    | none => none
    | some previous_size =>
      let s2 := { s with size := some captureSize }
      let change := size_change_calc previous_size captureSize
      (triggerEval once (some change)).map (fun t => (s2, t))

/-! ## The command router (`message_received`) -/

/-- JSON values, as produced by `json.loads`. -/
inductive JVal where
  | jstr (s : String)
  | jnum (n : Int)
  | jbool (b : Bool)
  | jnull
  | jarr (xs : List JVal)
  | jobj (fields : List (String × JVal))

/-- Whether a JSON value equals a given Python string under Python `==`. -/
def JVal.eqStr (v : JVal) (s : String) : Bool :=
  match v with
  | .jstr t => t == s
  | _ => false

/-- Dictionary lookup, as built by `json.loads` (a later duplicate key wins). -/
def jlookup (fields : List (String × JVal)) (k : String) : Option JVal :=
  (fields.reverse.find? (fun kv => kv.1 == k)).map (fun kv => kv.2)

/-- Uncaught Python exceptions that can escape `message_received`. -/
inductive PyErr where
  | jsonDecodeError
  | typeError
  | keyError
  | attributeError
deriving DecidableEq

/-- Python `k in payload` for the JSON value `json.loads` returned: key
membership for a dict, substring for a string, element equality for a list,
and a TypeError for the remaining scalars. -/
def pyContains (k : String) : JVal → Except PyErr Bool
  | .jobj fields => .ok (fields.any (fun kv => kv.1 == k))
  | .jstr s => .ok (pyIn k s)
  | .jarr xs => .ok (xs.any (fun v => v.eqStr k))
  | _ => .error .typeError

/-- Python `payload[k]` for a string key: dict lookup, TypeError otherwise. -/
def pyGetItem (payload : JVal) (k : String) : Except PyErr JVal :=
  match payload with
  | .jobj fields =>
    match jlookup fields k with
    | some v => .ok v
    | none => .error .keyError
  | _ => .error .typeError

/-- What a dispatch of `message_received` does: a state transition, a one-shot
capture, an enrollment, or one of the two log-and-ignore branches. -/
inductive RAction where
  | enableCam
  | disableCam
  | useOnce
  | indexFace (name : String)
  | logUnknownState (v : JVal)
  | logUnknownCommand (payload : JVal)

/-- Log-only branches: the two `print('Unknown ...')` dispatches. -/
def RAction.isLog : RAction → Bool
  | .logUnknownState _ => true
  | .logUnknownCommand _ => true
  | _ => false

/-- Dispatches that take a picture (`use_camera(once=True)` and `index_face`). -/
def RAction.takesPicture : RAction → Bool
  | .useOnce => true
  | .indexFace _ => true
  | _ => false

/-- The state change a dispatch performs on the camera attributes. A one-shot
capture and an enrollment leave them untouched; log branches touch nothing. -/
def applyRAction (a : RAction) (s : CamState) : CamState :=
  match a with
  | .enableCam => enable_camera s
  | .disableCam => disable_camera s
  | _ => s

/-- `message_received` (lines 62-82). The raw MQTT payload is modelled by
what `json.loads` does with it: `none` for a payload that is not valid JSON
(the decode error propagates, uncaught), `some v` for the parsed value.
Returns the single dispatched action, or the uncaught exception. -/
def message_received (raw : Option JVal) : Except PyErr RAction :=
  match raw with
  | none => .error .jsonDecodeError
  | some payload =>
    match pyContains "camera" payload with
    | .error e => .error e
    | .ok true =>
      match pyGetItem payload "camera" with
      | .error e => .error e
      | .ok v =>
        if v.eqStr "enable" then .ok .enableCam
        else if v.eqStr "disable" then .ok .disableCam
        else if v.eqStr "use" then .ok .useOnce
        else .ok (.logUnknownState v)
    | .ok false =>
      match pyContains "index" payload with
      | .error e => .error e
      | .ok true =>
        match pyGetItem payload "index" with
        | .error e => .error e
        | .ok (.jstr name) => .ok (.indexFace (pyCapitalize name))
        | .ok _ => .error .attributeError
      | .ok false => .ok (.logUnknownCommand payload)

/-- The request `index_face(name)` sends to the recognition service: the image
is registered in the fixed collection under `ExternalImageId = name`, the
name exactly as the router passed it. -/
structure IndexFacesRequest where
  CollectionId : String
  ExternalImageId : String
deriving DecidableEq

/-- `index_face` (lines 44-59), reduced to the request it issues. -/
def index_face (name : String) : IndexFacesRequest :=
  { CollectionId := REKOGNITION_COLLECTION_ID, ExternalImageId := name }


/-! ## The analysis cascade (`analyse_image` and `upload_seen`) -/

/-- One detected label from the label-detection stage. -/
structure Label where
  Name : String
  Confidence : ℚ
deriving DecidableEq

/-- One face detail from the face-detection stage (content opaque here). -/
structure FaceDetail where
  data : String
deriving DecidableEq

/-- One celebrity match (content opaque here). -/
structure CelebrityFace where
  data : String
deriving DecidableEq

/-- One known-face match (content opaque here). -/
structure FaceMatch where
  data : String
deriving DecidableEq

/-- Failure of a remote call (storage or vision service). -/
inductive RemoteErr where
  | remoteFailure
deriving DecidableEq

/-- The `seen` record `analyse_image` accumulates: `Image` and `Labels` are
always set; the later fields exist only when their stage ran. -/
structure Seen where
  ImageBucket : String
  ImageKey : String
  Labels : List Label
  FaceDetails : Option (List FaceDetail)
  CelebrityFaces : Option (List CelebrityFace)
  FaceMatches : Option (List FaceMatch)
deriving DecidableEq

/-- The responses the vision service would give for this image: one per
possible remote call of the cascade, each allowed to fail. -/
structure Rekognition where
  detect_labels : Except RemoteErr (List Label)
  detect_faces : Except RemoteErr (List FaceDetail)
  recognize_celebrities : Except RemoteErr (List CelebrityFace)
  search_faces_by_image : Except RemoteErr (List FaceMatch)

/-- The remote calls `analyse_image` can issue, in the order issued. -/
inductive Call where
  | detectLabels
  | detectFaces
  | recognizeCelebrities
  | searchFacesByImage
  | putSeen
deriving DecidableEq

/-- `upload_seen` (lines 123-131): one `put_object` of the serialized record
to the fixed key `S3_SEEN_KEY`; on failure nothing is stored. Returns the
writes performed and the outcome. -/
def upload_seen (putRes : Except RemoteErr Unit) (seen : Seen) :
    List (String × Seen) × Except RemoteErr Unit :=
  match putRes with
  | .ok _ => ([(S3_SEEN_KEY, seen)], .ok ())
  | .error e => ([], .error e)

/-- The tail of `analyse_image`: the `upload_seen(json.dumps(seen))` call,
tagged with the remote calls already made. -/
def finishAnalyse (calls : List Call) (seen : Seen)
    (putRes : Except RemoteErr Unit) :
    List Call × List (String × Seen) × Except RemoteErr Seen :=
  match upload_seen putRes seen with
  | (writes, .ok _) => (calls ++ [.putSeen], writes, .ok seen)
  | (writes, .error e) => (calls ++ [.putSeen], writes, .error e)

/-- `analyse_image` (lines 134-195): detect labels; if some label name
contains `"Person"`, detect faces; if at least one face, recognize
celebrities and search the collection; finally persist the record via
`upload_seen`. An exception from any remote call aborts the invocation at
that point. Returns the calls made, the storage writes performed, and the
outcome (the record on success, the first failure otherwise). -/
def analyse_image (key : String) (rek : Rekognition)
    (putRes : Except RemoteErr Unit) :
    List Call × List (String × Seen) × Except RemoteErr Seen :=
  match rek.detect_labels with
  | .error e => ([.detectLabels], [], .error e)
  | .ok labels =>
    let seen1 : Seen :=
      { ImageBucket := S3_BUCKET, ImageKey := key, Labels := labels,
        FaceDetails := none, CelebrityFaces := none, FaceMatches := none }
    if labels.any (fun l => pyIn "Person" l.Name) then
      match rek.detect_faces with
      | .error e => ([.detectLabels, .detectFaces], [], .error e)
      | .ok faces =>
        let seen2 := { seen1 with FaceDetails := some faces }
        if faces.length > 0 then
          match rek.recognize_celebrities with
          | .error e =>
            ([.detectLabels, .detectFaces, .recognizeCelebrities], [], .error e)
          | .ok celebs =>
            let seen3 := { seen2 with CelebrityFaces := some celebs }
            match rek.search_faces_by_image with
            | .error e =>
              ([.detectLabels, .detectFaces, .recognizeCelebrities,
                .searchFacesByImage], [], .error e)
            | .ok found =>
              let seen4 := { seen3 with FaceMatches := some found }
              finishAnalyse [.detectLabels, .detectFaces, .recognizeCelebrities,
                .searchFacesByImage] seen4 putRes
        else
          finishAnalyse [.detectLabels, .detectFaces] seen2 putRes
    else
      finishAnalyse [.detectLabels] seen1 putRes

/-! ## Theorems -/

/-- The executable absolute value agrees with the mathematical one. -/
theorem pyAbs_eq_abs (q : ℚ) : pyAbs q = |q| := by
  unfold pyAbs
  split
  · rw [abs_of_neg ‹q < 0›]
  · rw [abs_of_nonneg (le_of_not_lt ‹¬q < 0›)]

/-- C1: in a periodic cycle the image is uploaded and analysed exactly when
the change ratio exceeds `CHANGE_THRESHOLD = 0.005`; a one-shot cycle always
uploads and analyses and this does not depend on any ratio. -/
theorem use_camera_trigger_rule (s : CamState) (p cap : Nat)
    (h : s.size = some p) :
    use_camera false cap s =
      some ({ s with size := some cap },
            decide (size_change_calc p cap > CHANGE_THRESHOLD)) ∧
    use_camera true cap s = some (s, true) := by
  constructor
  · simp [use_camera, h, triggerEval, pyOr]
  · simp [use_camera, triggerEval, pyOr]

theorem use_camera_trigger_rule_witness :
    ((⟨true, some 1000⟩ : CamState).size = some 1000) ∧
    (use_camera false 1200 ⟨true, some 1000⟩ =
       some (⟨true, some 1200⟩,
             decide (size_change_calc 1000 1200 > CHANGE_THRESHOLD)) ∧
     use_camera true 1200 ⟨true, some 1000⟩ = some (⟨true, some 1000⟩, true)) :=
  ⟨rfl, use_camera_trigger_rule ⟨true, some 1000⟩ 1000 1200 rfl⟩

/-- C2: the change metric is `|1 - current/previous|` for a positive
baseline, `0` for a zero baseline, and non-negative in every case. -/
theorem size_change_calc_spec (p c : Nat) (hp : 0 < p) :
    size_change_calc p c = |1 - (c : ℚ) / (p : ℚ)| ∧
    size_change_calc 0 c = 0 ∧
    0 ≤ size_change_calc p c ∧ 0 ≤ size_change_calc 0 c := by
  have habs : size_change_calc p c = |1 - (c : ℚ) / (p : ℚ)| := by
    simp [size_change_calc, hp, pyAbs_eq_abs]
  refine ⟨habs, by simp [size_change_calc], ?_, by simp [size_change_calc]⟩
  rw [habs]
  exact abs_nonneg _

theorem size_change_calc_spec_witness :
    0 < 5 ∧
    (size_change_calc 5 7 = |1 - (7 : ℚ) / (5 : ℚ)| ∧
     size_change_calc 0 7 = 0 ∧
     0 ≤ size_change_calc 5 7 ∧ 0 ≤ size_change_calc 0 7) :=
  ⟨by decide, size_change_calc_spec 5 7 (by decide)⟩

/-- C3: when no stage-1 label name contains `"Person"`, the only remote
calls are label detection and the persistence put, and the persisted record
carries just the image reference and the labels. -/
theorem analyse_no_person_skips_stages (key : String) (rek : Rekognition)
    (putRes : Except RemoteErr Unit) (labels : List Label)
    (h1 : rek.detect_labels = .ok labels)
    (h2 : labels.any (fun l => pyIn "Person" l.Name) = false) :
    (analyse_image key rek putRes).1 = [.detectLabels, .putSeen] ∧
    (putRes = .ok () →
      analyse_image key rek putRes =
        ([.detectLabels, .putSeen],
         [(S3_SEEN_KEY,
           { ImageBucket := S3_BUCKET, ImageKey := key, Labels := labels,
             FaceDetails := none, CelebrityFaces := none,
             FaceMatches := none })],
         .ok { ImageBucket := S3_BUCKET, ImageKey := key, Labels := labels,
               FaceDetails := none, CelebrityFaces := none,
               FaceMatches := none })) := by
  constructor
  · cases putRes <;>
      simp [analyse_image, h1, h2, finishAnalyse, upload_seen]
  · rintro rfl
    simp [analyse_image, h1, h2, finishAnalyse, upload_seen]

theorem analyse_no_person_skips_stages_witness :
    ((⟨.ok [⟨"Cat", 90⟩], .ok [], .ok [], .ok []⟩ : Rekognition).detect_labels
       = .ok [⟨"Cat", 90⟩]) ∧
    (([⟨"Cat", 90⟩] : List Label).any (fun l => pyIn "Person" l.Name) = false) ∧
    ((analyse_image "k" ⟨.ok [⟨"Cat", 90⟩], .ok [], .ok [], .ok []⟩ (.ok ())).1
       = [.detectLabels, .putSeen] ∧
     ((.ok () : Except RemoteErr Unit) = .ok () →
       analyse_image "k" ⟨.ok [⟨"Cat", 90⟩], .ok [], .ok [], .ok []⟩ (.ok ()) =
         ([.detectLabels, .putSeen],
          [(S3_SEEN_KEY,
            { ImageBucket := S3_BUCKET, ImageKey := "k",
              Labels := [⟨"Cat", 90⟩], FaceDetails := none,
              CelebrityFaces := none, FaceMatches := none })],
          .ok { ImageBucket := S3_BUCKET, ImageKey := "k",
                Labels := [⟨"Cat", 90⟩], FaceDetails := none,
                CelebrityFaces := none, FaceMatches := none }))) :=
  ⟨rfl, rfl,
   analyse_no_person_skips_stages "k"
     ⟨.ok [⟨"Cat", 90⟩], .ok [], .ok [], .ok []⟩ (.ok ()) [⟨"Cat", 90⟩] rfl rfl⟩

/-- The writes `finishAnalyse` performs match its outcome. -/
theorem finishAnalyse_writes (calls : List Call) (seen : Seen)
    (putRes : Except RemoteErr Unit) :
    (finishAnalyse calls seen putRes).2.1 =
      (match (finishAnalyse calls seen putRes).2.2 with
       | .ok seenOut => [(S3_SEEN_KEY, seenOut)]
       | .error _ => []) := by
  cases putRes <;> simp [finishAnalyse, upload_seen]

/-- C4: persistence is atomic: a successful invocation writes exactly the
accumulated record to the fixed seen key, whatever stages ran; a failed
invocation writes nothing. -/
theorem analyse_atomic_persist (key : String) (rek : Rekognition)
    (putRes : Except RemoteErr Unit) :
    (analyse_image key rek putRes).2.1 =
      (match (analyse_image key rek putRes).2.2 with
       | .ok seen => [(S3_SEEN_KEY, seen)]
       | .error _ => []) := by
  rcases rek with ⟨dl, df, rc, sf⟩
  rcases dl with e | labels
  · simp [analyse_image]
  · by_cases hper : labels.any (fun l => pyIn "Person" l.Name)
    · rcases df with e | faces
      · simp [analyse_image, hper]
      · by_cases hface : faces.length > 0
        · rcases rc with e | celebs
          · simp [analyse_image, hper, hface]
          · rcases sf with e | found
            · simp [analyse_image, hper, hface]
            · simpa [analyse_image, hper, hface] using
                finishAnalyse_writes _ _ putRes
        · simpa [analyse_image, hper, hface] using
            finishAnalyse_writes _ _ putRes
    · simpa [analyse_image, hper] using finishAnalyse_writes _ _ putRes

/-- C5 (amended): a message that parses as a JSON object but matches neither
command shape — no `"camera"` and no `"index"` key, or a `"camera"` key with
an unrecognized value — dispatches exactly one log-only action: no error, no
capture, no state change. -/
theorem router_unrecognized_logs (fields : List (String × JVal))
    (h : (fields.any (fun kv => kv.1 == "camera") = false ∧
          fields.any (fun kv => kv.1 == "index") = false) ∨
         (∃ v, fields.any (fun kv => kv.1 == "camera") = true ∧
               jlookup fields "camera" = some v ∧
               v.eqStr "enable" = false ∧ v.eqStr "disable" = false ∧
               v.eqStr "use" = false)) :
    ∃ a, message_received (some (.jobj fields)) = .ok a ∧
         a.isLog = true ∧ a.takesPicture = false ∧
         applyRAction a = id := by
  rcases h with ⟨h1, h2⟩ | ⟨v, hm, hl, he, hd, hu⟩
  · refine ⟨.logUnknownCommand (.jobj fields), ?_, rfl, rfl, rfl⟩
    simp [message_received, pyContains, h1, h2]
  · refine ⟨.logUnknownState v, ?_, rfl, rfl, rfl⟩
    simp [message_received, pyContains, pyGetItem, hm, hl, he, hd, hu]

theorem router_unrecognized_logs_witness :
    ([("camera", JVal.jstr "frobnicate")].any (fun kv => kv.1 == "camera")
        = true ∧
      jlookup [("camera", JVal.jstr "frobnicate")] "camera"
        = some (.jstr "frobnicate") ∧
      JVal.eqStr (.jstr "frobnicate") "enable" = false ∧
      JVal.eqStr (.jstr "frobnicate") "disable" = false ∧
      JVal.eqStr (.jstr "frobnicate") "use" = false) ∧
    (∃ a, message_received
            (some (.jobj [("camera", JVal.jstr "frobnicate")])) = .ok a ∧
          a.isLog = true ∧ a.takesPicture = false ∧
          applyRAction a = id) :=
  ⟨⟨rfl, rfl, rfl, rfl, rfl⟩,
   router_unrecognized_logs [("camera", JVal.jstr "frobnicate")]
     (Or.inr ⟨.jstr "frobnicate", rfl, rfl, rfl, rfl, rfl⟩)⟩

/-- C5 (counterexample): a payload that is not valid JSON makes the router
raise an uncaught decode error instead of logging and continuing. -/
theorem router_nonjson_raises :
    message_received none = .error .jsonDecodeError := rfl

/-- C6: enabling the camera resets the baseline to `0`, so the first
periodic cycle after an enable computes ratio `0` and never uploads or
analyses, whatever size the capture has; it only records the new size. -/
theorem enable_then_first_poll_no_trigger (s : CamState) (cap : Nat) :
    (enable_camera s).size = some 0 ∧
    size_change_calc 0 cap = 0 ∧
    use_camera false cap (enable_camera s) =
      some ({ camera_enabled := true, size := some cap }, false) := by
  refine ⟨rfl, by simp [size_change_calc], ?_⟩
  simp [use_camera, enable_camera, triggerEval, pyOr, size_change_calc,
    CHANGE_THRESHOLD]
  norm_num

/-- C7 (counterexample): enrolling the name `"ALICE"` registers the label
`"Alice"`: the code lowercases everything after the first character, which
differs from only capitalizing the first letter of the supplied label. -/
theorem enroll_capitalize_counterexample :
    message_received (some (.jobj [("index", .jstr "ALICE")])) =
      .ok (.indexFace "Alice") ∧
    (index_face "Alice").ExternalImageId = "Alice" ∧
    capitalizeFirstLetterOnly "ALICE" = "ALICE" ∧
    ("Alice" : String) ≠ "ALICE" :=
  ⟨rfl, rfl, rfl, by decide⟩

/-- C7 (amended): an `"index"` command registers the face under the supplied
name transformed by Python `str.capitalize`: first character uppercased and
every later character lowercased; in particular `"alice"` becomes
`"Alice"`. -/
theorem enroll_capitalize_amended (s : String) (c : Char) (cs : List Char) :
    message_received (some (.jobj [("index", .jstr s)])) =
      .ok (.indexFace (pyCapitalize s)) ∧
    (index_face (pyCapitalize s)).ExternalImageId = pyCapitalize s ∧
    (index_face (pyCapitalize s)).CollectionId = REKOGNITION_COLLECTION_ID ∧
    pyCapitalize (String.mk (c :: cs)) =
      String.mk (c.toUpper :: cs.map Char.toLower) ∧
    pyCapitalize "alice" = "Alice" :=
  ⟨rfl, rfl, rfl, rfl, rfl⟩

/-- C8: a one-shot capture is dispatched regardless of the camera state,
changes neither the enabled flag nor the remembered size, and only a
periodic (non-one-shot) capture updates the remembered size. -/
theorem one_shot_stateless (s : CamState) (cap : Nat) :
    use_camera true cap s = some (s, true) ∧
    message_received (some (.jobj [("camera", .jstr "use")])) = .ok .useOnce ∧
    applyRAction .useOnce s = s ∧
    (∀ p, s.size = some p →
      use_camera false cap s =
        some ({ s with size := some cap },
              decide (size_change_calc p cap > CHANGE_THRESHOLD))) := by
  refine ⟨?_, rfl, rfl, fun p hp => ?_⟩
  · simp [use_camera, triggerEval, pyOr]
  · simp [use_camera, hp, triggerEval, pyOr]

theorem one_shot_stateless_witness :
    ((⟨false, some 5⟩ : CamState).size = some 5) ∧
    use_camera true 9 ⟨false, some 5⟩ = some (⟨false, some 5⟩, true) ∧
    use_camera false 9 ⟨false, some 5⟩ =
      some (⟨false, some 9⟩,
            decide (size_change_calc 5 9 > CHANGE_THRESHOLD)) :=
  ⟨rfl, (one_shot_stateless ⟨false, some 5⟩ 9).1,
   (one_shot_stateless ⟨false, some 5⟩ 9).2.2.2 5 rfl⟩

/-- C9 (counterexample): at process start the camera state is not fully
initialized: the enabled flag is set to false but the remembered size
attribute is left unset, not set to `0`. -/
theorem init_not_fully_initialized :
    initState.camera_enabled = false ∧
    initState.size ≠ some 0 ∧
    initState ≠ ⟨false, some 0⟩ :=
  ⟨rfl, by decide, by decide⟩

/-- C9 (amended): at process start only the enabled flag is initialized
(to false); the remembered size is unset until the first enable command,
which sets it to `0`. -/
theorem init_state_amended :
    initState = ⟨false, none⟩ ∧
    enable_camera initState = ⟨true, some 0⟩ :=
  ⟨rfl, rfl⟩

/-- C10: evaluating the trigger condition never reads an unassigned local:
with `once` true it short-circuits before reading the (unassigned) change
value, and with `once` false the change value was assigned by the update
block, so `use_camera` never raises over an assigned size attribute. -/
theorem use_camera_trigger_total (once : Bool) (cap : Nat) (s : CamState)
    (h : once = true ∨ s.size.isSome = true) :
    (use_camera once cap s).isSome = true ∧
    triggerEval true none = some true := by
  refine ⟨?_, rfl⟩
  rcases h with rfl | hs
  · simp [use_camera, triggerEval, pyOr]
  · rcases Option.isSome_iff_exists.mp hs with ⟨p, hp⟩
    cases once
    · simp [use_camera, hp, triggerEval, pyOr]
    · simp [use_camera, triggerEval, pyOr]

theorem use_camera_trigger_total_witness :
    (true = true ∨ (⟨false, none⟩ : CamState).size.isSome = true) ∧
    ((use_camera true 0 ⟨false, none⟩).isSome = true ∧
     triggerEval true none = some true) :=
  ⟨Or.inl rfl, use_camera_trigger_total true 0 ⟨false, none⟩ (Or.inl rfl)⟩
